import Mathlib

/-!
Verification of the BLE security-manager example
(`examples/mbedos5/mbed-os-example-ble/BLE_SM/source/main.cpp`).

The development shallowly embeds the event handlers of `SMDevice` /
`SMDevicePeripheral`: each handler becomes a Lean function from the
session state (the fields `_handle`, `_is_connecting`) and the event's
arguments to the updated session plus the list of outbound commands it
issues (security-manager calls, GAP calls, scheduled callbacks).
`ble_error_t` values are embedded as `Nat` (0 = `BLE_ERROR_NONE`).
-/

/-- Embedding of `SecurityManager::SecurityCompletionStatus_t`, restricted to the
distinction the code makes (`SEC_STATUS_SUCCESS` vs anything else). -/
inductive SecStatus where
  | success
  | failure
deriving DecidableEq, Repr

/-- Embedding of the `ble::link_encryption_t` values distinguished by
`linkEncryptionResult`. -/
inductive EncResult where
  | notEncrypted
  | encrypted
  | encryptedWithMitm
deriving DecidableEq, Repr

/-- Embedding of `Gap::TimeoutSource_t`. -/
inductive TimeoutSource where
  | advertising
  | scanning
  | connection
deriving DecidableEq, Repr

/-- The security level passed to `setLinkSecurity`. -/
inductive SecurityMode where
  | encryptionNoMitm
  | encryptionWithMitm
deriving DecidableEq, Repr

/-- Outbound commands a handler can issue to its collaborators. -/
inductive Command where
  | acceptPairing (h : Nat)
  | setLinkSecurity (h : Nat) (mode : SecurityMode)
  | startAdvertising
  | scheduleDisconnect (h : Nat) (delayMs : Nat)
  | breakDispatch
deriving DecidableEq, Repr

/-- The mutable per-device state of `SMDevice`: `_handle` (a
`ble::connection_handle_t`, constructor-initialised to 0) and
`_is_connecting` (constructor-initialised to false). -/
structure Session where
  handle : Nat
  is_connecting : Bool
deriving DecidableEq, Repr

/-- The state built by the `SMDevice` constructor: `_handle(0)`,
`_is_connecting(false)`. -/
def Session.init : Session := ⟨0, false⟩

/-- Inbound events delivered by the stack to the handlers.  Each carries
the arguments of the corresponding callback. -/
inductive Event where
  | connected (h : Nat)
  | disconnected (h : Nat) (reason : Nat)
  | pairingRequested (h : Nat)
  | pairingResult (h : Nat) (r : SecStatus)
  | encryptionResult (h : Nat) (r : EncResult)
  | timeout (src : TimeoutSource)
deriving DecidableEq, Repr

/-- The primitive effects `SMDevicePeripheral::on_connect` performs, in
program order (used to state that the handle is stored before the
link-security request is issued). -/
inductive HandlerAction where
  | storeHandle (h : Nat)
  | issue (c : Command)
deriving DecidableEq, Repr

/-- Apply one primitive effect to the session, collecting commands. -/
def applyAction : Session × List Command → HandlerAction → Session × List Command
  | (s, cs), HandlerAction.storeHandle h => ({ s with handle := h }, cs)
  | (s, cs), HandlerAction.issue c => (s, cs ++ [c])

/-- Apply a list of primitive effects left to right. -/
def applyActions (s : Session) (as : List HandlerAction) : Session × List Command :=
  as.foldl applyAction (s, [])

/-- Body of `SMDevicePeripheral::on_connect` (main.cpp:335-358) as its sequence
of primitive effects: line 341 stores `_handle = connection_event->handle`,
line 348 calls `setLinkSecurity(_handle, SECURITY_MODE_ENCRYPTION_NO_MITM)`.
The `if (error) return;` that follows performs no further effect on
either path. -/
def on_connect_actions (h : Nat) : List HandlerAction :=
  [HandlerAction.storeHandle h,
   HandlerAction.issue (Command.setLinkSecurity h SecurityMode.encryptionNoMitm)]

/-- Handler `SMDevicePeripheral::on_connect`: `err` is the `ble_error_t` returned
by `setLinkSecurity`; it only selects between an early `return` and the
exit log line, after the store and the call have both happened. -/
def on_connect (s : Session) (h : Nat) (err : Nat) : Session × List Command :=
  applyActions s (on_connect_actions h)

/-- Handler `SMDevice::on_disconnect` (main.cpp:227-235): logs the reason, then
unconditionally calls `BLE::Instance().gap().startAdvertising()`.  The
`break_dispatch()` call is commented out; `_handle` is not touched. -/
def on_disconnect (s : Session) (h : Nat) (reason : Nat) : Session × List Command :=
  (s, [Command.startAdvertising])

/-- Handler `SMDevice::pairingRequest` (main.cpp:108-113): logs, then
unconditionally calls `acceptPairingRequest(connectionHandle)`. -/
def pairingRequest (s : Session) (h : Nat) : Session × List Command :=
  (s, [Command.acceptPairing h])

/-- Handler `SMDevice::pairingResult` (main.cpp:116-133): logs success or
failure; the deferred `Gap::disconnect` in 500 ms is commented out, so no
command is issued and no state is changed. -/
def pairingResult (s : Session) (h : Nat) (r : SecStatus) : Session × List Command :=
  (s, [])

/-- Handler `SMDevice::linkEncryptionResult` (main.cpp:137-150): logs the
resulting encryption level only. -/
def linkEncryptionResult (s : Session) (h : Nat) (r : EncResult) : Session × List Command :=
  (s, [])

/-- Handler `SMDevice::on_timeout` (main.cpp:239-245): logs "Unexpected timeout -
aborting"; the `break_dispatch()` call is commented out, so nothing else
happens. -/
def on_timeout (s : Session) (src : TimeoutSource) : Session × List Command :=
  (s, [])

/-- Dispatch one inbound event to its handler.  `err` is the
`ble_error_t` the environment returns for the handler's outbound call
(only `on_connect` inspects one). -/
def step (s : Session) (e : Event) (err : Nat) : Session × List Command :=
  match e with
  | Event.connected h => on_connect s h err
  | Event.disconnected h reason => on_disconnect s h reason
  | Event.pairingRequested h => pairingRequest s h
  | Event.pairingResult h r => pairingResult s h r
  | Event.encryptionResult h r => linkEncryptionResult s h r
  | Event.timeout src => on_timeout s src

/-- Run the handlers over a sequence of events (each paired with the
environment's error response), returning the final session. -/
def runSession (s : Session) (evs : List (Event × Nat)) : Session :=
  evs.foldl (fun s ev => (step s ev.1 ev.2).1) s

/-- Run the handlers over a sequence of events, collecting every
outbound command in order. -/
def runCmds (s : Session) (evs : List (Event × Nat)) : List Command :=
  match evs with
  | [] => []
  | ev :: rest =>
      (step s ev.1 ev.2).2 ++ runCmds (step s ev.1 ev.2).1 rest

/-- The handle of the most recent `connected` event in the sequence, or
`d` if none occurs. -/
def lastConnectedHandle (d : Nat) (evs : List (Event × Nat)) : Nat :=
  evs.foldl
    (fun acc ev =>
      match ev.1 with
      | Event.connected h => h
      | _ => acc) d

/-- Modelled from the spec: "`connection_handle` is set if and only if a
`connected` event has been observed more recently than any `disconnected`
event" — true exactly when the sequence ends with a `connected` event not
followed by any `disconnected` event. -/
def specHandleSet (evs : List (Event × Nat)) : Bool :=
  evs.foldl
    (fun acc ev =>
      match ev.1 with
      | Event.connected _ => true
      | Event.disconnected _ _ => false
      | _ => acc) false

/-- The record of externally visible work done by
`SMDevice::on_init_complete` (main.cpp:173-220). -/
structure InitActions where
  smInitCalled : Bool
  smHandlerRegistered : Bool
  gapCallbacksRegistered : Bool
  serviceCreated : Bool
  startScheduledAfterMs : Option Nat
deriving DecidableEq, Repr

/-- Handler `SMDevice::on_init_complete`: `evErr` is `event->error`, `smErr` is
the `ble_error_t` returned by `securityManager().init()` (both 0 when no
error).  On `event->error` it returns before touching the security
manager; on a security-manager init error it returns before registering
any handler; otherwise it registers the SM event handler and the Gap
callbacks, creates the `LEDService`, and schedules `start()` in 500 ms. -/
def on_init_complete (evErr : Nat) (smErr : Nat) : InitActions :=
  if evErr ≠ 0 then
    { smInitCalled := false
      smHandlerRegistered := false
      gapCallbacksRegistered := false
      serviceCreated := false
      startScheduledAfterMs := none }
  else if smErr ≠ 0 then
    { smInitCalled := true
      smHandlerRegistered := false
      gapCallbacksRegistered := false
      serviceCreated := false
      startScheduledAfterMs := none }
  else
    { smInitCalled := true
      smHandlerRegistered := true
      gapCallbacksRegistered := true
      serviceCreated := true
      startScheduledAfterMs := some 500 }

/-- Count the `startAdvertising` commands in a command list. -/
def countStartAdvertising (cs : List Command) : Nat :=
  cs.countP (fun c => c = Command.startAdvertising)

/-- Whether a command list contains a scheduled `Gap::disconnect`. -/
def containsScheduledDisconnect (cs : List Command) : Bool :=
  cs.any (fun c =>
    match c with
    | Command.scheduleDisconnect _ _ => true
    | _ => false)

/-- Whether a command list contains `break_dispatch` (the only way the
`dispatch_forever` loop entered by `SMDevice::run` can end short of a
shutdown). -/
def terminatesDispatch (cs : List Command) : Bool :=
  cs.any (fun c => c = Command.breakDispatch)

/-- The number of `disconnected` events in a sequence. -/
def countDisconnects (evs : List (Event × Nat)) : Nat :=
  evs.countP (fun ev =>
    match ev.1 with
    | Event.disconnected _ _ => true
    | _ => false)

/-- The handle a single step leaves in the session: a `connected` event
overwrites it, every other handler leaves it alone. -/
theorem step_handle (s : Session) (e : Event) (err : Nat) :
    (step s e err).1.handle =
      match e with
      | Event.connected h => h
      | _ => s.handle := by
  cases e <;> rfl

/-- Splitting `terminatesDispatch` over an append. -/
theorem terminatesDispatch_append (a b : List Command) :
    terminatesDispatch (a ++ b) = (terminatesDispatch a || terminatesDispatch b) := by
  simp [terminatesDispatch, List.any_append]

/-- C1 counterexample: after `connected(5)` followed by `disconnected(5)`,
the session still records handle 5 — `on_disconnect` does not clear
`_handle` (main.cpp:227-235 only logs and restarts advertising) — while
the spec-side predicate says the handle must no longer be set.  This
refutes "no handle remains recorded after a disconnect". -/
theorem claim1_counterexample :
    runSession Session.init [(Event.connected 5, 0), (Event.disconnected 5 19, 0)]
      = { handle := 5, is_connecting := false } ∧
    specHandleSet [(Event.connected 5, 0), (Event.disconnected 5 19, 0)] = false :=
  ⟨rfl, rfl⟩

/-- C1 (amended): `on_connect` stores the event's handle but no handler —
in particular not `on_disconnect` — ever clears it, so after any sequence
of events the session's handle equals the handle of the most recent
`connected` event, or its initial value if no `connected` event occurred. -/
theorem claim1_handle_is_last_connected (s : Session) (evs : List (Event × Nat)) :
    (runSession s evs).handle = lastConnectedHandle s.handle evs := by
  induction evs generalizing s with
  | nil => rfl
  | cons ev rest ih =>
      obtain ⟨e, err⟩ := ev
      cases e <;> exact ih _

/-- C2 counterexample: a pairing request delivered in the fresh
constructor state (no `connected` event ever observed) is not rejected or
ignored — the handler unconditionally issues `acceptPairingRequest` for
the event's handle (main.cpp:108-113). -/
theorem claim2_counterexample :
    pairingRequest Session.init 7 = (Session.init, [Command.acceptPairing 7]) :=
  rfl

/-- C2 (amended): a pairing-requested event that arrives while no
connection is recorded does not crash the handler (the handler is a total
function of the session), but it is not rejected or ignored either: the
handler issues exactly one `accept_pairing` command for the event's
handle and leaves the session unchanged, exactly as for any other pairing
request. -/
theorem claim2_pairing_request_always_accepted (s : Session) (h : Nat) :
    pairingRequest s h = (s, [Command.acceptPairing h]) :=
  rfl

/-- C3 counterexample: a duplicate `disconnected(1)` delivered twice in a
row from the idle initial state produces a second `startAdvertising`
call — `on_disconnect` calls `gap().startAdvertising()` unconditionally
(main.cpp:233), with no guard on the session state. -/
theorem claim3_counterexample :
    runCmds Session.init [(Event.disconnected 1 19, 0), (Event.disconnected 1 19, 0)]
      = [Command.startAdvertising, Command.startAdvertising] :=
  rfl

/-- C3 (amended): every `disconnected` event — including one received
while the session is idle, and each delivery of a duplicate — produces
exactly one `startAdvertising` command and changes no session state; the
handler is not an idempotent no-op. -/
theorem claim3_disconnect_always_advertises (s : Session) (h reason : Nat) :
    on_disconnect s h reason = (s, [Command.startAdvertising]) :=
  rfl

/-- C4 counterexample: a timeout received in a connected state (session
holding handle 1) restarts nothing — `on_timeout` (main.cpp:239-245)
only logs, so zero `startAdvertising` commands are issued, not exactly
one. -/
theorem claim4_counterexample :
    countStartAdvertising (on_timeout ⟨1, false⟩ TimeoutSource.connection).2 = 0 :=
  rfl

/-- C4 (amended): over any event sequence, advertising is restarted
exactly once per `disconnected` event and never otherwise; in particular
a `timeout` event contributes no restart (its handler issues no
command). -/
theorem claim4_advertising_restarts_match_disconnects (s : Session) (evs : List (Event × Nat)) :
    countStartAdvertising (runCmds s evs) = countDisconnects evs := by
  induction evs generalizing s with
  | nil => rfl
  | cons ev rest ih =>
      obtain ⟨e, err⟩ := ev
      have hrun : runCmds s ((e, err) :: rest)
          = (step s e err).2 ++ runCmds (step s e err).1 rest := rfl
      have h2 := ih (step s e err).1
      rw [hrun]
      simp only [countStartAdvertising, countDisconnects, List.countP_append,
        List.countP_cons] at h2 ⊢
      rw [h2]
      cases e <;> simp [step, on_connect, on_disconnect, pairingRequest, pairingResult,
        linkEncryptionResult, on_timeout, applyActions, applyAction, on_connect_actions,
        List.countP_cons] <;> omega

/-- C5 counterexample: after a pairing-result event with status success,
no command at all is issued — in particular no deferred disconnect is
scheduled (the `call_in(500, ..., Gap::disconnect, ...)` block in
`pairingResult`, main.cpp:127-131, is commented out), so the one-shot
behavior does not exist. -/
theorem claim5_counterexample :
    (pairingResult ⟨1, false⟩ 1 SecStatus.success).2 = []
      ∧ containsScheduledDisconnect (pairingResult ⟨1, false⟩ 1 SecStatus.success).2 = false :=
  ⟨rfl, rfl⟩

/-- C5 (amended): no one-shot policy is implemented or configurable: the
pairing-result handler logs the outcome and issues no command and changes
no state for any result, so no disconnect is ever scheduled after a
successful pairing; only the persistent restart-advertising behavior
exists. -/
theorem claim5_pairing_result_schedules_nothing (s : Session) (h : Nat) (r : SecStatus) :
    pairingResult s h r = (s, []) :=
  rfl

/-- C6: for every `connected` event delivered to the peripheral, the
handler stores the event's connection handle in the session and issues
exactly one `setLinkSecurity` command at `SECURITY_MODE_ENCRYPTION_NO_MITM`
within the same handling step, whatever error the call returns. -/
theorem claim6_connect_stores_and_requests_security (s : Session) (h err : Nat) :
    (on_connect s h err).1 = { s with handle := h } ∧
    (on_connect s h err).2 = [Command.setLinkSecurity h SecurityMode.encryptionNoMitm] :=
  ⟨rfl, rfl⟩

/-- C7: every pairing-requested event is answered, within the same
handling step, by exactly one `accept_pairing` command carrying the
event's connection handle — the command list has length one and consists
of that command, never zero commands and never more than one. -/
theorem claim7_exactly_one_accept (s : Session) (h : Nat) :
    (pairingRequest s h).2.length = 1 ∧
    (pairingRequest s h).2.countP (fun c => c = Command.acceptPairing h) = 1 := by
  constructor
  · rfl
  · simp [pairingRequest]

/-- C8: if the initialisation-complete event carries an error the handler
returns at once (the security engine is not even initialised); if the
security engine's own `init` fails the handler returns there (no handler
registered, no service created, no deferred start); only when both
succeed are the event handlers registered, the service created, and
`start()` scheduled after the fixed 500 ms delay. -/
theorem claim8_init_stops_at_first_error (e m : Nat) :
    on_init_complete (e + 1) m
      = { smInitCalled := false, smHandlerRegistered := false,
          gapCallbacksRegistered := false, serviceCreated := false,
          startScheduledAfterMs := none } ∧
    on_init_complete 0 (m + 1)
      = { smInitCalled := true, smHandlerRegistered := false,
          gapCallbacksRegistered := false, serviceCreated := false,
          startScheduledAfterMs := none } ∧
    on_init_complete 0 0
      = { smInitCalled := true, smHandlerRegistered := true,
          gapCallbacksRegistered := true, serviceCreated := true,
          startScheduledAfterMs := some 500 } := by
  refine ⟨?_, ?_, rfl⟩ <;> simp [on_init_complete]

/-- C9: no event handler ever issues `break_dispatch` (both occurrences
in the source are commented out), so for every sequence of inbound events
the command trace never terminates the `dispatch_forever` loop entered by
`SMDevice::run` — the device never stops on its own. -/
theorem claim9_dispatch_never_terminated (s : Session) (evs : List (Event × Nat)) :
    terminatesDispatch (runCmds s evs) = false := by
  induction evs generalizing s with
  | nil => rfl
  | cons ev rest ih =>
      obtain ⟨e, err⟩ := ev
      have hrun : runCmds s ((e, err) :: rest)
          = (step s e err).2 ++ runCmds (step s e err).1 rest := rfl
      have hstep : terminatesDispatch (step s e err).2 = false := by
        cases e <;> rfl
      rw [hrun, terminatesDispatch_append, hstep, Bool.false_or]
      exact ih _

/-- C10: `on_connect` stores the connection handle (line 341) strictly
before issuing the `setLinkSecurity` request (line 348) — visible in its
action trace — so even when the request returns a nonzero error the
session's stored handle still equals the handle of the `connected`
event. -/
theorem claim10_handle_stored_before_security_request (s : Session) (h err : Nat)
    (he : err ≠ 0) :
    on_connect_actions h
      = [HandlerAction.storeHandle h,
         HandlerAction.issue (Command.setLinkSecurity h SecurityMode.encryptionNoMitm)] ∧
    (on_connect s h err).1.handle = h :=
  ⟨rfl, rfl⟩

/-- C10 witness: a concrete failing link-security request (error 7) after
`connected(5)` still leaves handle 5 stored. -/
theorem claim10_witness :
    on_connect_actions 5
      = [HandlerAction.storeHandle 5,
         HandlerAction.issue (Command.setLinkSecurity 5 SecurityMode.encryptionNoMitm)] ∧
    (on_connect Session.init 5 7).1.handle = 5 :=
  claim10_handle_stored_before_security_request Session.init 5 7 (by decide)
